import Mathlib

/-!
Shallow embedding of the uniform 3-D structured-grid mesh
(fipy/meshes/numMesh/uniformGrid3D.py) and proofs about its
topological and geometric queries.

Conventions of the embedding:
* Python floats are modelled as exact rationals (ℚ), Python ints as ℤ.
* Masked-array entries are modelled as `Option ℤ` (`none` = masked).
* Arrays indexed over the (i, j, k) lattice and flattened in the source
  (final index fastest after the swap-axes calls) become functions of the
  linear ID, with the lattice coordinates recovered by the i-fastest
  decoding `i = id % a`, `j = (id / a) % b`, `k = (id / a) / b`, where
  (a, b) are the extents of the two fastest axes.
-/

set_option autoImplicit false

/-- Grid parameters stored by `UniformGrid3D.__init__` (units reduced to
plain scalars, as the spec's interface contract prescribes). -/
structure UniformGrid3D where
  dx : ℚ
  dy : ℚ
  dz : ℚ
  nx : ℤ
  ny : ℤ
  nz : ℤ
  ox : ℚ
  oy : ℚ
  oz : ℚ
deriving DecidableEq

namespace UniformGrid3D

/-- numberOfVertices = (nx + 1) * (ny + 1) * (nz + 1). -/
def numberOfVertices (g : UniformGrid3D) : ℤ := (g.nx + 1) * (g.ny + 1) * (g.nz + 1)

/-- numberOfXYFaces = nx * ny * (nz + 1). -/
def numberOfXYFaces (g : UniformGrid3D) : ℤ := g.nx * g.ny * (g.nz + 1)

/-- numberOfXZFaces = nx * (ny + 1) * nz. -/
def numberOfXZFaces (g : UniformGrid3D) : ℤ := g.nx * (g.ny + 1) * g.nz

/-- numberOfYZFaces = (nx + 1) * ny * nz. -/
def numberOfYZFaces (g : UniformGrid3D) : ℤ := (g.nx + 1) * g.ny * g.nz

/-- numberOfFaces = numberOfXYFaces + numberOfXZFaces + numberOfYZFaces. -/
def numberOfFaces (g : UniformGrid3D) : ℤ :=
  g.numberOfXYFaces + g.numberOfXZFaces + g.numberOfYZFaces

/-- numberOfCells = nx * ny * nz. -/
def numberOfCells (g : UniformGrid3D) : ℤ := g.nx * g.ny * g.nz

/-- UniformGrid3D.__init__: stores the parameters and never raises (the
scale divisions are identities for plain dimensionless scalars).  The
`Except` wrapper records that the source has no failure path: the result
is always `Except.ok`. -/
def init (dx dy dz : ℚ) (nx ny nz : ℤ) (ox oy oz : ℚ) :
    Except String UniformGrid3D :=
  Except.ok { dx := dx, dy := dy, dz := dz, nx := nx, ny := ny, nz := nz,
              ox := ox, oy := oy, oz := oz }

/-- _translate: a new mesh with the same spacings and counts and the
origin shifted by the vector. -/
def translate (g : UniformGrid3D) (tx ty tz : ℚ) : UniformGrid3D :=
  { g with ox := g.ox + tx, oy := g.oy + ty, oz := g.oz + tz }

/-- __mul__: a new mesh with every spacing and the origin multiplied by
the factor; the counts are passed through unchanged. -/
def mulGrid (g : UniformGrid3D) (s : ℚ) : UniformGrid3D :=
  { dx := g.dx * s, dy := g.dy * s, dz := g.dz * s,
    nx := g.nx, ny := g.ny, nz := g.nz,
    ox := g.ox * s, oy := g.oy * s, oz := g.oz * s }

end UniformGrid3D

section DecodeLemmas

/-- Decomposition of a linear index into lattice coordinates is a left
inverse of the i-fastest encoding. -/
theorem decode_of_encode (a b i j k : ℤ) (ha : 0 < a) (hb : 0 < b)
    (hi0 : 0 ≤ i) (hi1 : i < a) (hj0 : 0 ≤ j) (hj1 : j < b) (_hk0 : 0 ≤ k) :
    (i + a * (j + b * k)) % a = i ∧
    ((i + a * (j + b * k)) / a) % b = j ∧
    ((i + a * (j + b * k)) / a) / b = k := by
  have ha' : a ≠ 0 := ne_of_gt ha
  have hb' : b ≠ 0 := ne_of_gt hb
  refine ⟨?_, ?_, ?_⟩
  · rw [Int.add_mul_emod_self_left, Int.emod_eq_of_lt hi0 hi1]
  · rw [Int.add_mul_ediv_left _ _ ha', Int.ediv_eq_zero_of_lt hi0 hi1, zero_add,
      Int.add_mul_emod_self_left, Int.emod_eq_of_lt hj0 hj1]
  · rw [Int.add_mul_ediv_left _ _ ha', Int.ediv_eq_zero_of_lt hi0 hi1, zero_add,
      Int.add_mul_ediv_left _ _ hb', Int.ediv_eq_zero_of_lt hj0 hj1, zero_add]

/-- Reconstruction of a linear index from its decoded lattice
coordinates; holds unconditionally. -/
theorem encode_of_decode (a b r : ℤ) :
    r % a + a * ((r / a) % b + b * ((r / a) / b)) = r := by
  have h1 : b * ((r / a) / b) + (r / a) % b = r / a := Int.ediv_add_emod (r / a) b
  have h2 : a * (r / a) + r % a = r := Int.ediv_add_emod r a
  calc r % a + a * ((r / a) % b + b * ((r / a) / b))
      = a * (b * ((r / a) / b) + (r / a) % b) + r % a := by ring
    _ = a * (r / a) + r % a := by rw [h1]
    _ = r := h2

/-- Bounds of the decoded lattice coordinates of an in-range linear
index. -/
theorem decode_bounds (a b n r : ℤ) (ha : 0 < a) (hb : 0 < b)
    (hr0 : 0 ≤ r) (hr1 : r < a * b * n) :
    0 ≤ r % a ∧ r % a < a ∧
    0 ≤ (r / a) % b ∧ (r / a) % b < b ∧
    0 ≤ (r / a) / b ∧ (r / a) / b < n := by
  have ha' : a ≠ 0 := ne_of_gt ha
  have hb' : b ≠ 0 := ne_of_gt hb
  refine ⟨Int.emod_nonneg r ha', Int.emod_lt_of_pos r ha,
    Int.emod_nonneg _ hb', Int.emod_lt_of_pos _ hb,
    Int.ediv_nonneg (Int.ediv_nonneg hr0 (le_of_lt ha)) (le_of_lt hb), ?_⟩
  have h1 : r / a < b * n := by
    rw [Int.ediv_lt_iff_lt_mul ha]
    calc r < a * b * n := hr1
      _ = b * n * a := by ring
  rw [Int.ediv_lt_iff_lt_mul hb]
  calc r / a < b * n := h1
    _ = n * b := by ring

/-- Nonnegativity of the i-fastest encoding. -/
theorem encode_nonneg (a b i j k : ℤ) (ha : 0 < a) (hb : 0 < b)
    (hi0 : 0 ≤ i) (hj0 : 0 ≤ j) (hk0 : 0 ≤ k) :
    0 ≤ i + a * (j + b * k) := by
  have h1 : 0 ≤ b * k := mul_nonneg (le_of_lt hb) hk0
  have h2 : 0 ≤ a * (j + b * k) := mul_nonneg (le_of_lt ha) (by linarith)
  linarith

/-- Upper bound of the i-fastest encoding over extents (a, b, n). -/
theorem encode_lt (a b n i j k : ℤ) (ha : 0 < a) (hb : 0 < b)
    (hi1 : i < a) (hj1 : j < b) (hk1 : k < n) :
    i + a * (j + b * k) < a * b * n := by
  have h1 : a * j ≤ a * (b - 1) :=
    mul_le_mul_of_nonneg_left (by linarith) (le_of_lt ha)
  have h2 : a * b * k ≤ a * b * (n - 1) :=
    mul_le_mul_of_nonneg_left (by linarith)
      (mul_nonneg (le_of_lt ha) (le_of_lt hb))
  have h3 : i + a * (j + b * k) = i + a * j + a * b * k := by ring
  have h4 : i + a * (b - 1) + a * b * (n - 1) < a * b * n := by ring_nf; linarith
  linarith

end DecodeLemmas

namespace UniformGrid3D

/-- Decoded view of a linear face ID: the band (0 = XY, 1 = XZ, 2 = YZ)
and the in-band lattice coordinates, following the three contiguous
bands XY, XZ, YZ and the i-fastest in-band numbering that the
swap-axes/reshape calls of the source produce. -/
def decodeFace (g : UniformGrid3D) (f : ℤ) : ℕ × ℤ × ℤ × ℤ :=
  if f < g.numberOfXYFaces then
    (0, f % g.nx, (f / g.nx) % g.ny, (f / g.nx) / g.ny)
  else if f < g.numberOfXYFaces + g.numberOfXZFaces then
    let r := f - g.numberOfXYFaces
    (1, r % g.nx, (r / g.nx) % (g.ny + 1), (r / g.nx) / (g.ny + 1))
  else
    let r := f - g.numberOfXYFaces - g.numberOfXZFaces
    (2, r % (g.nx + 1), (r / (g.nx + 1)) % g.ny, (r / (g.nx + 1)) / g.ny)

/-- getFaceCellIDs, XY band: slot 1 is i + (j + k*ny)*nx; slot 0 is
slot 1 minus nx*ny, overwritten with slot 1's value at k = 0; slot 1 is
masked at k = 0 and k = nz. -/
def faceCellIDsXY (g : UniformGrid3D) (i j k : ℤ) : Option ℤ × Option ℤ :=
  let p := i + (j + k * g.ny) * g.nx
  (some (if k = 0 then p else p - g.nx * g.ny),
   if k = 0 ∨ k = g.nz then none else some p)

/-- getFaceCellIDs, XZ band: slot 1 is i + (j + k*ny)*nx; slot 0 is
slot 1 minus nx, overwritten with slot 1's value at j = 0; slot 1 is
masked at j = 0 and j = ny. -/
def faceCellIDsXZ (g : UniformGrid3D) (i j k : ℤ) : Option ℤ × Option ℤ :=
  let p := i + (j + k * g.ny) * g.nx
  (some (if j = 0 then p else p - g.nx),
   if j = 0 ∨ j = g.ny then none else some p)

/-- getFaceCellIDs, YZ band: slot 1 is i + (j + k*ny)*nx; slot 0 is
slot 1 minus 1, overwritten with slot 1's value at i = 0; slot 1 is
masked at i = 0 and i = nx. -/
def faceCellIDsYZ (g : UniformGrid3D) (i j k : ℤ) : Option ℤ × Option ℤ :=
  let p := i + (j + k * g.ny) * g.nx
  (some (if i = 0 then p else p - 1),
   if i = 0 ∨ i = g.nx then none else some p)

/-- getFaceCellIDs: the two neighbor-cell slots of a face, dispatched
over the face's band. -/
def getFaceCellIDs (g : UniformGrid3D) (f : ℤ) : Option ℤ × Option ℤ :=
  let d := decodeFace g f
  if d.1 = 0 then faceCellIDsXY g d.2.1 d.2.2.1 d.2.2.2
  else if d.1 = 1 then faceCellIDsXZ g d.2.1 d.2.2.1 d.2.2.2
  else faceCellIDsYZ g d.2.1 d.2.2.1 d.2.2.2

/-- getExteriorFaces: a face is marked exterior when its ID occurs in
one of the six selected boundary layers (XY band at k = 0 and k = nz,
XZ band at j = 0 and j = ny, YZ band at i = 0 and i = nx). -/
def exteriorFace (g : UniformGrid3D) (f : ℤ) : Bool :=
  let d := decodeFace g f
  if d.1 = 0 then decide (d.2.2.2 = 0 ∨ d.2.2.2 = g.nz)
  else if d.1 = 1 then decide (d.2.2.1 = 0 ∨ d.2.2.1 = g.ny)
  else decide (d.2.1 = 0 ∨ d.2.1 = g.nx)

/-- getInteriorFaces: a face is marked interior when its ID occurs in
the complementary open layer range of its band (XY band 1 ≤ k ≤ nz-1,
XZ band 1 ≤ j ≤ ny-1, YZ band 1 ≤ i ≤ nx-1). -/
def interiorFace (g : UniformGrid3D) (f : ℤ) : Bool :=
  let d := decodeFace g f
  if d.1 = 0 then decide (1 ≤ d.2.2.2 ∧ d.2.2.2 ≤ g.nz - 1)
  else if d.1 = 1 then decide (1 ≤ d.2.2.1 ∧ d.2.2.1 ≤ g.ny - 1)
  else decide (1 ≤ d.2.1 ∧ d.2.1 ≤ g.nx - 1)

/-- Claim-side notion for C4, following the claim's words: a face on a
domain boundary along its normal axis (normal-axis lattice index at
either extreme of its band). -/
def specBoundaryFace (g : UniformGrid3D) (f : ℤ) : Bool :=
  let d := decodeFace g f
  if d.1 = 0 then decide (d.2.2.2 = 0 ∨ d.2.2.2 = g.nz)
  else if d.1 = 1 then decide (d.2.2.1 = 0 ∨ d.2.2.1 = g.ny)
  else decide (d.2.1 = 0 ∨ d.2.1 = g.nx)

/-- Lattice column of a cell ID (i-fastest decoding). -/
def cellI (g : UniformGrid3D) (c : ℤ) : ℤ := c % g.nx

/-- Lattice row of a cell ID. -/
def cellJ (g : UniformGrid3D) (c : ℤ) : ℤ := (c / g.nx) % g.ny

/-- Lattice layer of a cell ID. -/
def cellK (g : UniformGrid3D) (c : ℤ) : ℤ := (c / g.nx) / g.ny

/-- _getCellToCellIDs: the six candidate neighbor IDs of a cell, as the
source computes them (slots -X, +X, -Y, +Y, -Z, +Z), masked at the
matching domain boundary.  Note the source's ±Y values subtract/add
nz*nx, not nx. -/
def cellToCellIDs (g : UniformGrid3D) (slot : ℕ) (c : ℤ) : Option ℤ :=
  let i := cellI g c
  let j := cellJ g c
  let k := cellK g c
  if slot = 0 then (if i = 0 then none else some (i + (j + k * g.ny) * g.nx - 1))
  else if slot = 1 then (if i = g.nx - 1 then none else some (i + (j + k * g.ny) * g.nx + 1))
  else if slot = 2 then (if j = 0 then none else some (i + (j + k * g.ny - g.nz) * g.nx))
  else if slot = 3 then (if j = g.ny - 1 then none else some (i + (j + k * g.ny + g.nz) * g.nx))
  else if slot = 4 then (if k = 0 then none else some (i + (j + (k - 1) * g.ny) * g.nx))
  else if slot = 5 then (if k = g.nz - 1 then none else some (i + (j + (k + 1) * g.ny) * g.nx))
  else none

/-- _getCellToCellDistances, lines 391-404: the distances array at
(slot, cell), i.e. per direction slot the matching spacing, halved on
the matching domain boundary.  After the swapaxes(1,3) call the flat
(slot-major) sequence of this array holds this value at flat position
slot * numberOfCells + c. -/
def cellToCellDistancesArray (g : UniformGrid3D) (slot : ℕ) (c : ℤ) : ℚ :=
  let i := cellI g c
  let j := cellJ g c
  let k := cellK g c
  if slot = 0 then (if i = 0 then g.dx / 2 else g.dx)
  else if slot = 1 then (if i = g.nx - 1 then g.dx / 2 else g.dx)
  else if slot = 2 then (if j = 0 then g.dy / 2 else g.dy)
  else if slot = 3 then (if j = g.ny - 1 then g.dy / 2 else g.dy)
  else if slot = 4 then (if k = 0 then g.dz / 2 else g.dz)
  else if slot = 5 then (if k = g.nz - 1 then g.dz / 2 else g.dz)
  else 0

/-- _getCellToCellDistances, line 407: the value the query returns.
The slot-major flat data is reshaped row-major to shape
(numberOfCells, 6) -- transposed relative to the (6, numberOfCells)
layout every sibling query of the file uses -- so the entry at row a,
column b is flat[6*a + b], i.e. the distances-array entry at slot
(6*a + b) div numberOfCells and cell (6*a + b) mod numberOfCells. -/
def cellToCellDistances (g : UniformGrid3D) (a b : ℤ) : ℚ :=
  cellToCellDistancesArray g ((6 * a + b) / numberOfCells g).toNat
    ((6 * a + b) % numberOfCells g)

/-- Claim-side helper for C2: the relevant spacing of each direction
slot (dx, dx, dy, dy, dz, dz). -/
def slotSpacing (g : UniformGrid3D) (slot : ℕ) : ℚ :=
  if slot = 0 ∨ slot = 1 then g.dx
  else if slot = 2 ∨ slot = 3 then g.dy
  else if slot = 4 ∨ slot = 5 then g.dz
  else 0

/-- Claim-side helper for C2: the cell's own lattice coordinate lies on
the domain boundary that the direction slot looks at. -/
def slotOnBoundary (g : UniformGrid3D) (slot : ℕ) (c : ℤ) : Bool :=
  if slot = 0 then decide (cellI g c = 0)
  else if slot = 1 then decide (cellI g c = g.nx - 1)
  else if slot = 2 then decide (cellJ g c = 0)
  else if slot = 3 then decide (cellJ g c = g.ny - 1)
  else if slot = 4 then decide (cellK g c = 0)
  else if slot = 5 then decide (cellK g c = g.nz - 1)
  else false

/-- Modelled from the spec: Grid3D._createCells (the cell→face table
used by _getCellFaceIDs) is not under src/.  Following the spec's
Cell→Face contract and the in-file doctest, cell (i, j, k) lists its
six faces in slot order -X, +X, -Y, +Y, -Z, +Z: the YZ faces at i and
i+1, the XZ faces at j and j+1, the XY faces at k and k+1, each
encoded in its own band. -/
def cellFaceIDs (g : UniformGrid3D) (slot : ℕ) (c : ℤ) : ℤ :=
  let i := cellI g c
  let j := cellJ g c
  let k := cellK g c
  if slot = 0 then g.numberOfXYFaces + g.numberOfXZFaces + (i + (j + k * g.ny) * (g.nx + 1))
  else if slot = 1 then g.numberOfXYFaces + g.numberOfXZFaces + ((i + 1) + (j + k * g.ny) * (g.nx + 1))
  else if slot = 2 then g.numberOfXYFaces + (i + (j + k * (g.ny + 1)) * g.nx)
  else if slot = 3 then g.numberOfXYFaces + (i + ((j + 1) + k * (g.ny + 1)) * g.nx)
  else if slot = 4 then i + (j + k * g.ny) * g.nx
  else if slot = 5 then i + (j + (k + 1) * g.ny) * g.nx
  else 0

/-- _getCellFaceOrientations: +1 when the face's slot-0 neighbor (the
first row of getFaceCellIDs) equals the querying cell, else -1. -/
def cellFaceOrientations (g : UniformGrid3D) (slot : ℕ) (c : ℤ) : ℤ :=
  if (getFaceCellIDs g (cellFaceIDs g slot c)).1 = some c then 1 else -1

/-- _getFaceAreas: dx*dy on the XY band, dx*dz on the XZ band, dy*dz on
the YZ band. -/
def getFaceAreas (g : UniformGrid3D) (f : ℤ) : ℚ :=
  if f < g.numberOfXYFaces then g.dx * g.dy
  else if f < g.numberOfXYFaces + g.numberOfXZFaces then g.dx * g.dz
  else g.dy * g.dz

/-- getCellVolumes: dx*dy*dz, uniform over cells. -/
def getCellVolumes (g : UniformGrid3D) : ℚ := g.dx * g.dy * g.dz

/-- _getCellDistances: per face, the spacing along the face's normal
axis, halved on the two boundary layers of its band. -/
def cellDistances (g : UniformGrid3D) (f : ℤ) : ℚ :=
  let d := decodeFace g f
  if d.1 = 0 then (if d.2.2.2 = 0 ∨ d.2.2.2 = g.nz then g.dz / 2 else g.dz)
  else if d.1 = 1 then (if d.2.2.1 = 0 ∨ d.2.2.1 = g.ny then g.dy / 2 else g.dy)
  else (if d.2.1 = 0 ∨ d.2.1 = g.nx then g.dx / 2 else g.dx)

/-- getCellCenters: cell (i, j, k) is centred at
((i+1/2)dx, (j+1/2)dy, (k+1/2)dz) plus the origin. -/
def getCellCenters (g : UniformGrid3D) (c : ℤ) : ℚ × ℚ × ℚ :=
  (((cellI g c : ℚ) + 1/2) * g.dx + g.ox,
   ((cellJ g c : ℚ) + 1/2) * g.dy + g.oy,
   ((cellK g c : ℚ) + 1/2) * g.dz + g.oz)

/-- getFaceCenters: in-plane coordinates use (index + 1/2) * spacing,
the normal-axis coordinate uses index * spacing; the origin is never
added. -/
def getFaceCenters (g : UniformGrid3D) (f : ℤ) : ℚ × ℚ × ℚ :=
  let d := decodeFace g f
  if d.1 = 0 then
    (((d.2.1 : ℚ) + 1/2) * g.dx, ((d.2.2.1 : ℚ) + 1/2) * g.dy, (d.2.2.2 : ℚ) * g.dz)
  else if d.1 = 1 then
    (((d.2.1 : ℚ) + 1/2) * g.dx, (d.2.2.1 : ℚ) * g.dy, ((d.2.2.2 : ℚ) + 1/2) * g.dz)
  else
    ((d.2.1 : ℚ) * g.dx, ((d.2.2.1 : ℚ) + 1/2) * g.dy, ((d.2.2.2 : ℚ) + 1/2) * g.dz)

/-- Modelled from the spec: Grid3D._createVertices is not under src/.
Per the spec's Geometry Builder, vertex (i, j, k) sits at
(i*dx, j*dy, k*dz) before the origin shift; vertices are numbered
i-fastest over extents (nx+1, ny+1, nz+1). -/
def createVertices (g : UniformGrid3D) (v : ℤ) : ℚ × ℚ × ℚ :=
  let i := v % (g.nx + 1)
  let j := (v / (g.nx + 1)) % (g.ny + 1)
  let k := (v / (g.nx + 1)) / (g.ny + 1)
  ((i : ℚ) * g.dx, (j : ℚ) * g.dy, (k : ℚ) * g.dz)

/-- getVertexCoords: _createVertices() plus the origin. -/
def getVertexCoords (g : UniformGrid3D) (v : ℤ) : ℚ × ℚ × ℚ :=
  let p := createVertices g v
  (p.1 + g.ox, p.2.1 + g.oy, p.2.2 + g.oz)

/-- numerix.rint: round to the nearest integer, ties to even. -/
def rint (q : ℚ) : ℤ :=
  let f := ⌊q⌋
  if q - f < 1/2 then f
  else if 1/2 < q - f then f + 1
  else if f % 2 = 0 then f else f + 1

/-- _getNearestCellID: subtract cell 0's centre, divide by the spacing,
round to the nearest integer, clamp each axis into [0, count-1] (first
from below, then from above), then encode k*ny*nx + j*nx + i. -/
def nearestCellID (g : UniformGrid3D) (x y z : ℚ) : ℤ :=
  let c0 := getCellCenters g 0
  let i0 := rint ((x - c0.1) / g.dx)
  let i1 := if i0 < 0 then 0 else i0
  let i := if i1 > g.nx - 1 then g.nx - 1 else i1
  let j0 := rint ((y - c0.2.1) / g.dy)
  let j1 := if j0 < 0 then 0 else j0
  let j := if j1 > g.ny - 1 then g.ny - 1 else j1
  let k0 := rint ((z - c0.2.2) / g.dz)
  let k1 := if k0 < 0 then 0 else k0
  let k := if k1 > g.nz - 1 then g.nz - 1 else k1
  k * g.ny * g.nx + j * g.nx + i

end UniformGrid3D

open UniformGrid3D

/-- Concrete 1 x 2 x 2 grid exhibiting the ±Y stride defect of
_getCellToCellIDs. -/
def G122 : UniformGrid3D := ⟨1, 1, 1, 1, 2, 2, 0, 0, 0⟩

/-- Concrete 2 x 1 x 1 grid used for the orientation counterexample. -/
def G211 : UniformGrid3D := ⟨1, 1, 1, 2, 1, 1, 0, 0, 0⟩

/-- Concrete 2 x 2 x 2 grid used by witnesses. -/
def Gw : UniformGrid3D := ⟨1, 2, 3, 2, 2, 2, 5, 7, 11⟩

/-- C1: the cell-to-cell adjacency uses stride nz*nx, not nx, in the
-Y and +Y slots.  On the 1 x 2 x 2 grid, cell 1 has lattice
coordinates (i, j, k) = (0, 1, 0); its -Y slot is unmasked (j = 1 is
not on the -Y boundary) and the source's formula yields -1, which is
not a cell ID of [0, numberOfCells) = [0, 4), while the claim's
base - nx formula yields 1 - 1 = 0. -/
theorem C1_counterexample_y_stride :
    cellToCellIDs G122 2 1 = some (-1) ∧
    numberOfCells G122 = 4 ∧
    cellI G122 1 = 0 ∧ cellJ G122 1 = 1 ∧ cellK G122 1 = 0 ∧
    (1 : ℤ) - G122.nx = 0 := by decide

/-- Spacing law of the cell-to-cell distances array of lines 391-404:
each direction slot carries the relevant spacing (dx, dx, dy, dy, dz,
dz), halved exactly when the neighbor in that direction is masked,
which happens exactly when the cell's own lattice coordinate lies on
the corresponding domain boundary. -/
theorem cellToCellDistancesArray_spacing (g : UniformGrid3D)
    (_hx : 1 ≤ g.nx) (_hy : 1 ≤ g.ny) (_hz : 1 ≤ g.nz)
    (c : ℤ) (_hc0 : 0 ≤ c) (_hc1 : c < g.numberOfCells)
    (slot : ℕ) (hs : slot < 6) :
    cellToCellDistancesArray g slot c =
      (if cellToCellIDs g slot c = Option.none then slotSpacing g slot / 2
       else slotSpacing g slot) ∧
    (cellToCellIDs g slot c = Option.none ↔ slotOnBoundary g slot c = true) := by
  interval_cases slot
  · rcases eq_or_ne (cellI g c) 0 with h | h <;>
      simp [cellToCellDistancesArray, cellToCellIDs, slotSpacing, slotOnBoundary, h]
  · rcases eq_or_ne (cellI g c) (g.nx - 1) with h | h <;>
      simp [cellToCellDistancesArray, cellToCellIDs, slotSpacing, slotOnBoundary, h]
  · rcases eq_or_ne (cellJ g c) 0 with h | h <;>
      simp [cellToCellDistancesArray, cellToCellIDs, slotSpacing, slotOnBoundary, h]
  · rcases eq_or_ne (cellJ g c) (g.ny - 1) with h | h <;>
      simp [cellToCellDistancesArray, cellToCellIDs, slotSpacing, slotOnBoundary, h]
  · rcases eq_or_ne (cellK g c) 0 with h | h <;>
      simp [cellToCellDistancesArray, cellToCellIDs, slotSpacing, slotOnBoundary, h]
  · rcases eq_or_ne (cellK g c) (g.nz - 1) with h | h <;>
      simp [cellToCellDistancesArray, cellToCellIDs, slotSpacing, slotOnBoundary, h]

/-- Concrete 1 x 1 x 2 grid (dx=1, dy=2, dz=4, numberOfCells=2)
exhibiting the transposed reshape of _getCellToCellDistances. -/
def G112 : UniformGrid3D := ⟨1, 2, 4, 1, 1, 2, 0, 0, 0⟩

/-- C2: the query's final reshape (line 407) is to (numberOfCells, 6),
transposed relative to the (6, numberOfCells) convention of every
sibling query and of the query's own doctest (which passes only
because its mesh has numberOfCells = 6).  On the 1 x 1 x 2 grid with
dx=1, dy=2, dz=4, the returned entry at row 0 (cell 0), column 2 (the
-Y direction) is 1/2 -- a +X-slot value of the flat data -- while cell
0's -Y distance per the claim, the value the lines 391-404 array
holds, is dy/2 = 1. -/
theorem C2_counterexample_transposed_reshape :
    numberOfCells G112 = 2 ∧
    cellToCellDistances G112 0 2 = 1/2 ∧
    cellToCellDistancesArray G112 2 0 = 1 ∧
    cellToCellDistances G112 0 2 ≠ cellToCellDistancesArray G112 2 0 := by
  refine ⟨by decide, ?_, ?_, ?_⟩ <;>
    norm_num [cellToCellDistances, cellToCellDistancesArray, numberOfCells,
      cellI, cellJ, cellK, G112]

/-- C6: construction with a non-positive spacing (dx = -1) and a
negative cell count (nx = -1) does not fail: it returns a mesh holding
the invalid parameters unchanged (with numberOfCells = -1), and no
error is ever reported. -/
theorem C6_counterexample_no_validation :
    (∃ g : UniformGrid3D,
        init (-1) 1 1 (-1) 1 1 0 0 0 = Except.ok g ∧
        g.dx = -1 ∧ g.nx = -1 ∧ g.numberOfCells = -1) ∧
    ¬ ∃ e, init (-1) 1 1 (-1) 1 1 0 0 0 = Except.error e := by
  refine ⟨⟨_, rfl, rfl, rfl, rfl⟩, ?_⟩
  rintro ⟨e, h⟩
  simp [init] at h

/-- C6 (amended): construction performs no validation at all: every
parameter tuple, including non-positive spacings and negative cell
counts, is accepted and stored verbatim, never clamped, and
construction never reports an error. -/
theorem C6_init_accepts_everything (dx dy dz : ℚ) (nx ny nz : ℤ) (ox oy oz : ℚ) :
    init dx dy dz nx ny nz ox oy oz =
      Except.ok ⟨dx, dy, dz, nx, ny, nz, ox, oy, oz⟩ := rfl

/-- C8: querying cell centres after translating a mesh by (tx, ty, tz)
gives exactly the original centres shifted by (tx, ty, tz), for every
cell. -/
theorem C8_translate_shifts_cellCenters (g : UniformGrid3D) (tx ty tz : ℚ) (c : ℤ) :
    getCellCenters (translate g tx ty tz) c =
      ((getCellCenters g c).1 + tx, (getCellCenters g c).2.1 + ty,
       (getCellCenters g c).2.2 + tz) := by
  simp only [getCellCenters, UniformGrid3D.translate, cellI, cellJ, cellK, Prod.mk.injEq]
  exact ⟨by ring, by ring, by ring⟩

/-- C10: face centres never include the origin, so translating a mesh
leaves every face centre unchanged while every vertex coordinate and
every cell centre shifts by exactly the translation vector. -/
theorem C10_faceCenters_ignore_origin (g : UniformGrid3D) (tx ty tz : ℚ) (f v c : ℤ) :
    getFaceCenters (translate g tx ty tz) f = getFaceCenters g f ∧
    getVertexCoords (translate g tx ty tz) v =
      ((getVertexCoords g v).1 + tx, (getVertexCoords g v).2.1 + ty,
       (getVertexCoords g v).2.2 + tz) ∧
    getCellCenters (translate g tx ty tz) c =
      ((getCellCenters g c).1 + tx, (getCellCenters g c).2.1 + ty,
       (getCellCenters g c).2.2 + tz) := by
  refine ⟨rfl, ?_, ?_⟩
  · simp only [getVertexCoords, createVertices, UniformGrid3D.translate, Prod.mk.injEq]
    exact ⟨by ring, by ring, by ring⟩
  · simp only [getCellCenters, UniformGrid3D.translate, cellI, cellJ, cellK, Prod.mk.injEq]
    exact ⟨by ring, by ring, by ring⟩

/-- Field and derived-query invariance of scaling: the scaled mesh's
spacings. -/
theorem mulGrid_dx (g : UniformGrid3D) (s : ℚ) : (mulGrid g s).dx = g.dx * s := rfl

/-- Scaled mesh's dy. -/
theorem mulGrid_dy (g : UniformGrid3D) (s : ℚ) : (mulGrid g s).dy = g.dy * s := rfl

/-- Scaled mesh's dz. -/
theorem mulGrid_dz (g : UniformGrid3D) (s : ℚ) : (mulGrid g s).dz = g.dz * s := rfl

/-- Scaling leaves nx unchanged. -/
theorem mulGrid_nx (g : UniformGrid3D) (s : ℚ) : (mulGrid g s).nx = g.nx := rfl

/-- Scaling leaves ny unchanged. -/
theorem mulGrid_ny (g : UniformGrid3D) (s : ℚ) : (mulGrid g s).ny = g.ny := rfl

/-- Scaling leaves nz unchanged. -/
theorem mulGrid_nz (g : UniformGrid3D) (s : ℚ) : (mulGrid g s).nz = g.nz := rfl

/-- Scaling leaves the face decoding unchanged. -/
theorem mulGrid_decodeFace (g : UniformGrid3D) (s : ℚ) (f : ℤ) :
    decodeFace (mulGrid g s) f = decodeFace g f := rfl

/-- Scaling leaves cell lattice columns unchanged. -/
theorem mulGrid_cellI (g : UniformGrid3D) (s : ℚ) (c : ℤ) :
    cellI (mulGrid g s) c = cellI g c := rfl

/-- Scaling leaves cell lattice rows unchanged. -/
theorem mulGrid_cellJ (g : UniformGrid3D) (s : ℚ) (c : ℤ) :
    cellJ (mulGrid g s) c = cellJ g c := rfl

/-- Scaling leaves cell lattice layers unchanged. -/
theorem mulGrid_cellK (g : UniformGrid3D) (s : ℚ) (c : ℤ) :
    cellK (mulGrid g s) c = cellK g c := rfl

/-- Scaling leaves the XY face count unchanged. -/
theorem mulGrid_numberOfXYFaces (g : UniformGrid3D) (s : ℚ) :
    numberOfXYFaces (mulGrid g s) = numberOfXYFaces g := rfl

/-- Scaling leaves the XZ face count unchanged. -/
theorem mulGrid_numberOfXZFaces (g : UniformGrid3D) (s : ℚ) :
    numberOfXZFaces (mulGrid g s) = numberOfXZFaces g := rfl

/-- Scaling multiplies every entry of the cell-to-cell distances array
by the factor. -/
theorem mulGrid_cellToCellDistancesArray (g : UniformGrid3D) (s : ℚ) (slot : ℕ) (c : ℤ) :
    cellToCellDistancesArray (mulGrid g s) slot c = s * cellToCellDistancesArray g slot c := by
  simp only [cellToCellDistancesArray, mulGrid_cellI, mulGrid_cellJ, mulGrid_cellK,
    mulGrid_dx, mulGrid_dy, mulGrid_dz, mulGrid_nx, mulGrid_ny, mulGrid_nz]
  split_ifs <;> ring

/-- Scaling leaves the cell count, hence the reshape index arithmetic
of line 407, unchanged, and multiplies every entry of the returned
(numberOfCells, 6)-shaped cell-to-cell distance value by the factor. -/
theorem mulGrid_cellToCellDistances (g : UniformGrid3D) (s : ℚ) (a b : ℤ) :
    cellToCellDistances (mulGrid g s) a b = s * cellToCellDistances g a b := by
  simp only [cellToCellDistances]
  have hN : numberOfCells (mulGrid g s) = numberOfCells g := rfl
  rw [hN]
  exact mulGrid_cellToCellDistancesArray g s _ _

/-- C9: scaling a mesh by s multiplies every face area by s^2, the
cell volume by s^3 and every cell distance and cell-to-cell distance
by s, while the vertex/face/cell counts, the per-band face counts and
the face-to-cell, cell-to-cell and cell-to-face ID mappings are
unchanged. -/
theorem C9_scaling (g : UniformGrid3D) (s : ℚ) (f c : ℤ) (slot : ℕ) :
    getFaceAreas (mulGrid g s) f = s ^ 2 * getFaceAreas g f ∧
    getCellVolumes (mulGrid g s) = s ^ 3 * getCellVolumes g ∧
    cellDistances (mulGrid g s) f = s * cellDistances g f ∧
    cellToCellDistancesArray (mulGrid g s) slot c = s * cellToCellDistancesArray g slot c ∧
    cellToCellDistances (mulGrid g s) c (slot : ℤ) = s * cellToCellDistances g c (slot : ℤ) ∧
    numberOfVertices (mulGrid g s) = numberOfVertices g ∧
    numberOfXYFaces (mulGrid g s) = numberOfXYFaces g ∧
    numberOfXZFaces (mulGrid g s) = numberOfXZFaces g ∧
    numberOfYZFaces (mulGrid g s) = numberOfYZFaces g ∧
    numberOfFaces (mulGrid g s) = numberOfFaces g ∧
    numberOfCells (mulGrid g s) = numberOfCells g ∧
    getFaceCellIDs (mulGrid g s) f = getFaceCellIDs g f ∧
    cellToCellIDs (mulGrid g s) slot c = cellToCellIDs g slot c ∧
    cellFaceIDs (mulGrid g s) slot c = cellFaceIDs g slot c := by
  refine ⟨?_, ?_, ?_, mulGrid_cellToCellDistancesArray g s slot c,
    mulGrid_cellToCellDistances g s c (slot : ℤ),
    rfl, rfl, rfl, rfl, rfl, rfl, rfl, rfl, rfl⟩
  · simp only [getFaceAreas, mulGrid_numberOfXYFaces, mulGrid_numberOfXZFaces,
      mulGrid_dx, mulGrid_dy, mulGrid_dz]
    split_ifs <;> ring
  · simp only [getCellVolumes, mulGrid_dx, mulGrid_dy, mulGrid_dz]
    ring
  · simp only [cellDistances, mulGrid_decodeFace, mulGrid_dx, mulGrid_dy, mulGrid_dz,
      mulGrid_nx, mulGrid_ny, mulGrid_nz]
    split_ifs <;> ring

/-- decodeFace on the XY band. -/
theorem decodeFace_xy (g : UniformGrid3D) (f : ℤ) (h : f < g.numberOfXYFaces) :
    decodeFace g f = (0, f % g.nx, (f / g.nx) % g.ny, (f / g.nx) / g.ny) := by
  simp [decodeFace, h]

/-- decodeFace on the XZ band. -/
theorem decodeFace_xz (g : UniformGrid3D) (f : ℤ) (h1 : ¬ f < g.numberOfXYFaces)
    (h2 : f < g.numberOfXYFaces + g.numberOfXZFaces) :
    decodeFace g f = (1, (f - g.numberOfXYFaces) % g.nx,
      ((f - g.numberOfXYFaces) / g.nx) % (g.ny + 1),
      ((f - g.numberOfXYFaces) / g.nx) / (g.ny + 1)) := by
  simp [decodeFace, h1, h2]

/-- decodeFace on the YZ band. -/
theorem decodeFace_yz (g : UniformGrid3D) (f : ℤ) (h1 : ¬ f < g.numberOfXYFaces)
    (h2 : ¬ f < g.numberOfXYFaces + g.numberOfXZFaces) :
    decodeFace g f = (2, (f - g.numberOfXYFaces - g.numberOfXZFaces) % (g.nx + 1),
      ((f - g.numberOfXYFaces - g.numberOfXZFaces) / (g.nx + 1)) % g.ny,
      ((f - g.numberOfXYFaces - g.numberOfXZFaces) / (g.nx + 1)) / g.ny) := by
  simp [decodeFace, h1, h2]

/-- The source's cell encoding i + (j + k*ny)*nx is a valid cell ID for
in-range lattice coordinates. -/
theorem encodeCell_bounds (g : UniformGrid3D) (i j k : ℤ)
    (hx : 1 ≤ g.nx) (hy : 1 ≤ g.ny)
    (hi0 : 0 ≤ i) (hi1 : i < g.nx) (hj0 : 0 ≤ j) (hj1 : j < g.ny)
    (hk0 : 0 ≤ k) (hk1 : k < g.nz) :
    0 ≤ i + (j + k * g.ny) * g.nx ∧ i + (j + k * g.ny) * g.nx < numberOfCells g := by
  have e : i + (j + k * g.ny) * g.nx = i + g.nx * (j + g.ny * k) := by ring
  have h1 := encode_nonneg g.nx g.ny i j k (by omega) (by omega) hi0 hj0 hk0
  have h2 := encode_lt g.nx g.ny g.nz i j k (by omega) (by omega) hi1 hj1 hk1
  have e2 : numberOfCells g = g.nx * g.ny * g.nz := rfl
  constructor
  · rw [e]; exact h1
  · rw [e, e2]; exact h2

/-- C5: for every face ID, the exterior and interior markings are
complementary (they partition all faces), a face is exterior exactly
when exactly one of its two adjacency slots is missing, and interior
exactly when both are present. -/
theorem C5_exterior_interior_partition (g : UniformGrid3D)
    (hx : 1 ≤ g.nx) (hy : 1 ≤ g.ny) (_hz : 1 ≤ g.nz)
    (f : ℤ) (hf0 : 0 ≤ f) (hf1 : f < numberOfFaces g) :
    (exteriorFace g f = true ↔ ¬ interiorFace g f = true) ∧
    (exteriorFace g f = true ↔
      (((getFaceCellIDs g f).1 = none ∧ (getFaceCellIDs g f).2 ≠ none) ∨
       ((getFaceCellIDs g f).1 ≠ none ∧ (getFaceCellIDs g f).2 = none))) ∧
    (interiorFace g f = true ↔
      ((getFaceCellIDs g f).1 ≠ none ∧ (getFaceCellIDs g f).2 ≠ none)) := by
  rcases lt_or_le f g.numberOfXYFaces with h1 | h1
  · obtain ⟨hi0, hi1, hj0, hj1, hk0, hk1⟩ :=
      decode_bounds g.nx g.ny (g.nz + 1) f (by omega) (by omega) hf0 h1
    have hdf := decodeFace_xy g f h1
    set I := f % g.nx with hI
    set J := (f / g.nx) % g.ny with hJ
    set K := (f / g.nx) / g.ny with hK
    have hext : exteriorFace g f = decide (K = 0 ∨ K = g.nz) := by
      simp [exteriorFace, hdf]
    have hint : interiorFace g f = decide (1 ≤ K ∧ K ≤ g.nz - 1) := by
      simp [interiorFace, hdf]
    have hfc : getFaceCellIDs g f = faceCellIDsXY g I J K := by
      simp [getFaceCellIDs, hdf]
    rw [hext, hint, hfc]
    simp only [faceCellIDsXY, decide_eq_true_eq]
    refine ⟨by omega, ?_, ?_⟩
    · by_cases h : K = 0 ∨ K = g.nz <;> simp [h]
    · by_cases h : K = 0 ∨ K = g.nz <;> simp [h] <;> omega
  · rcases lt_or_le f (g.numberOfXYFaces + g.numberOfXZFaces) with h2 | h2
    · have hr0 : (0:ℤ) ≤ f - g.numberOfXYFaces := by omega
      have e : g.numberOfXZFaces = g.nx * (g.ny + 1) * g.nz := rfl
      have hr1 : f - g.numberOfXYFaces < g.nx * (g.ny + 1) * g.nz := by
        rw [← e]; omega
      obtain ⟨hi0, hi1, hj0, hj1, hk0, hk1⟩ :=
        decode_bounds g.nx (g.ny + 1) g.nz (f - g.numberOfXYFaces)
          (by omega) (by omega) hr0 hr1
      have hdf := decodeFace_xz g f (by omega) h2
      set I := (f - g.numberOfXYFaces) % g.nx with hI
      set J := ((f - g.numberOfXYFaces) / g.nx) % (g.ny + 1) with hJ
      set K := ((f - g.numberOfXYFaces) / g.nx) / (g.ny + 1) with hK
      have hext : exteriorFace g f = decide (J = 0 ∨ J = g.ny) := by
        simp [exteriorFace, hdf]
      have hint : interiorFace g f = decide (1 ≤ J ∧ J ≤ g.ny - 1) := by
        simp [interiorFace, hdf]
      have hfc : getFaceCellIDs g f = faceCellIDsXZ g I J K := by
        simp [getFaceCellIDs, hdf]
      rw [hext, hint, hfc]
      simp only [faceCellIDsXZ, decide_eq_true_eq]
      refine ⟨by omega, ?_, ?_⟩
      · by_cases h : J = 0 ∨ J = g.ny <;> simp [h]
      · by_cases h : J = 0 ∨ J = g.ny <;> simp [h] <;> omega
    · have hr0 : (0:ℤ) ≤ f - g.numberOfXYFaces - g.numberOfXZFaces := by omega
      have e : g.numberOfYZFaces = (g.nx + 1) * g.ny * g.nz := rfl
      have e2 : numberOfFaces g =
          g.numberOfXYFaces + g.numberOfXZFaces + g.numberOfYZFaces := rfl
      have hr1 : f - g.numberOfXYFaces - g.numberOfXZFaces <
          (g.nx + 1) * g.ny * g.nz := by
        rw [← e]; rw [e2] at hf1; omega
      obtain ⟨hi0, hi1, hj0, hj1, hk0, hk1⟩ :=
        decode_bounds (g.nx + 1) g.ny g.nz (f - g.numberOfXYFaces - g.numberOfXZFaces)
          (by omega) (by omega) hr0 hr1
      have hdf := decodeFace_yz g f (by omega) (by omega)
      set I := (f - g.numberOfXYFaces - g.numberOfXZFaces) % (g.nx + 1) with hI
      set J := ((f - g.numberOfXYFaces - g.numberOfXZFaces) / (g.nx + 1)) % g.ny with hJ
      set K := ((f - g.numberOfXYFaces - g.numberOfXZFaces) / (g.nx + 1)) / g.ny with hK
      have hext : exteriorFace g f = decide (I = 0 ∨ I = g.nx) := by
        simp [exteriorFace, hdf]
      have hint : interiorFace g f = decide (1 ≤ I ∧ I ≤ g.nx - 1) := by
        simp [interiorFace, hdf]
      have hfc : getFaceCellIDs g f = faceCellIDsYZ g I J K := by
        simp [getFaceCellIDs, hdf]
      rw [hext, hint, hfc]
      simp only [faceCellIDsYZ, decide_eq_true_eq]
      refine ⟨by omega, ?_, ?_⟩
      · by_cases h : I = 0 ∨ I = g.nx <;> simp [h]
      · by_cases h : I = 0 ∨ I = g.nx <;> simp [h] <;> omega

/-- C5 witness: the theorem applied to the 2 x 2 x 2 grid at face 0. -/
theorem C5_witness :
    ((1 : ℤ) ≤ Gw.nx ∧ (1 : ℤ) ≤ Gw.ny ∧ (1 : ℤ) ≤ Gw.nz ∧ (0 : ℤ) ≤ 0 ∧
      (0 : ℤ) < numberOfFaces Gw) ∧
    ((exteriorFace Gw 0 = true ↔ ¬ interiorFace Gw 0 = true) ∧
     (exteriorFace Gw 0 = true ↔
       (((getFaceCellIDs Gw 0).1 = none ∧ (getFaceCellIDs Gw 0).2 ≠ none) ∨
        ((getFaceCellIDs Gw 0).1 ≠ none ∧ (getFaceCellIDs Gw 0).2 = none))) ∧
     (interiorFace Gw 0 = true ↔
       ((getFaceCellIDs Gw 0).1 ≠ none ∧ (getFaceCellIDs Gw 0).2 ≠ none))) :=
  ⟨by decide,
   C5_exterior_interior_partition Gw (by decide) (by decide) (by decide)
     0 (by decide) (by decide)⟩

/-- C4: every face on a domain boundary along its normal axis carries
exactly one valid neighbor cell ID (the other slot is masked), and
every other face carries two valid, distinct neighbor cell IDs. -/
theorem C4_faceCellIDs_valid (g : UniformGrid3D)
    (hx : 1 ≤ g.nx) (hy : 1 ≤ g.ny) (hz : 1 ≤ g.nz)
    (f : ℤ) (hf0 : 0 ≤ f) (hf1 : f < numberOfFaces g) :
    (specBoundaryFace g f = true →
      (getFaceCellIDs g f).2 = none ∧
      ∃ c0, (getFaceCellIDs g f).1 = some c0 ∧ 0 ≤ c0 ∧ c0 < numberOfCells g) ∧
    (specBoundaryFace g f = false →
      ∃ c0 c1, (getFaceCellIDs g f).1 = some c0 ∧ (getFaceCellIDs g f).2 = some c1 ∧
        0 ≤ c0 ∧ c0 < numberOfCells g ∧ 0 ≤ c1 ∧ c1 < numberOfCells g ∧ c0 ≠ c1) := by
  rcases lt_or_le f g.numberOfXYFaces with h1 | h1
  · obtain ⟨hi0, hi1, hj0, hj1, hk0, hk1⟩ :=
      decode_bounds g.nx g.ny (g.nz + 1) f (by omega) (by omega) hf0 h1
    have hdf := decodeFace_xy g f h1
    set I := f % g.nx with hI
    set J := (f / g.nx) % g.ny with hJ
    set K := (f / g.nx) / g.ny with hK
    have hbd : specBoundaryFace g f = decide (K = 0 ∨ K = g.nz) := by
      simp [specBoundaryFace, hdf]
    have hfc : getFaceCellIDs g f = faceCellIDsXY g I J K := by
      simp [getFaceCellIDs, hdf]
    rw [hbd, hfc]
    simp only [faceCellIDsXY, decide_eq_true_eq, decide_eq_false_iff_not]
    constructor
    · intro hb
      refine ⟨by rw [if_pos hb], ?_⟩
      rcases eq_or_ne K 0 with hk | hk
      · exact ⟨I + (J + K * g.ny) * g.nx, by rw [if_pos hk],
          (encodeCell_bounds g I J K hx hy hi0 hi1 hj0 hj1 hk0 (by omega)).1,
          (encodeCell_bounds g I J K hx hy hi0 hi1 hj0 hj1 hk0 (by omega)).2⟩
      · have hbz : K = g.nz := by tauto
        refine ⟨I + (J + (K - 1) * g.ny) * g.nx, ?_,
          (encodeCell_bounds g I J (K - 1) hx hy hi0 hi1 hj0 hj1 (by omega) (by omega)).1,
          (encodeCell_bounds g I J (K - 1) hx hy hi0 hi1 hj0 hj1 (by omega) (by omega)).2⟩
        rw [if_neg hk]
        exact congrArg some (by ring)
    · intro hb
      push_neg at hb
      obtain ⟨hb0, hbn⟩ := hb
      refine ⟨I + (J + (K - 1) * g.ny) * g.nx, I + (J + K * g.ny) * g.nx,
        ?_, by rw [if_neg (by tauto)],
        (encodeCell_bounds g I J (K - 1) hx hy hi0 hi1 hj0 hj1 (by omega) (by omega)).1,
        (encodeCell_bounds g I J (K - 1) hx hy hi0 hi1 hj0 hj1 (by omega) (by omega)).2,
        (encodeCell_bounds g I J K hx hy hi0 hi1 hj0 hj1 hk0 (by omega)).1,
        (encodeCell_bounds g I J K hx hy hi0 hi1 hj0 hj1 hk0 (by omega)).2, ?_⟩
      · rw [if_neg hb0]
        exact congrArg some (by ring)
      · have hpos : (0:ℤ) < g.ny * g.nx := mul_pos (by omega) (by omega)
        have heq : (I + (J + K * g.ny) * g.nx) - (I + (J + (K - 1) * g.ny) * g.nx)
            = g.ny * g.nx := by ring
        exact ne_of_lt (by linarith)
  · rcases lt_or_le f (g.numberOfXYFaces + g.numberOfXZFaces) with h2 | h2
    · have hr0 : (0:ℤ) ≤ f - g.numberOfXYFaces := by omega
      have e : g.numberOfXZFaces = g.nx * (g.ny + 1) * g.nz := rfl
      have hr1 : f - g.numberOfXYFaces < g.nx * (g.ny + 1) * g.nz := by
        rw [← e]; omega
      obtain ⟨hi0, hi1, hj0, hj1, hk0, hk1⟩ :=
        decode_bounds g.nx (g.ny + 1) g.nz (f - g.numberOfXYFaces)
          (by omega) (by omega) hr0 hr1
      have hdf := decodeFace_xz g f (by omega) h2
      set I := (f - g.numberOfXYFaces) % g.nx with hI
      set J := ((f - g.numberOfXYFaces) / g.nx) % (g.ny + 1) with hJ
      set K := ((f - g.numberOfXYFaces) / g.nx) / (g.ny + 1) with hK
      have hbd : specBoundaryFace g f = decide (J = 0 ∨ J = g.ny) := by
        simp [specBoundaryFace, hdf]
      have hfc : getFaceCellIDs g f = faceCellIDsXZ g I J K := by
        simp [getFaceCellIDs, hdf]
      rw [hbd, hfc]
      simp only [faceCellIDsXZ, decide_eq_true_eq, decide_eq_false_iff_not]
      constructor
      · intro hb
        refine ⟨by rw [if_pos hb], ?_⟩
        rcases eq_or_ne J 0 with hj | hj
        · exact ⟨I + (J + K * g.ny) * g.nx, by rw [if_pos hj],
            (encodeCell_bounds g I J K hx hy hi0 hi1 hj0 (by omega) hk0 hk1).1,
            (encodeCell_bounds g I J K hx hy hi0 hi1 hj0 (by omega) hk0 hk1).2⟩
        · have hbz : J = g.ny := by tauto
          refine ⟨I + ((J - 1) + K * g.ny) * g.nx, ?_,
            (encodeCell_bounds g I (J - 1) K hx hy hi0 hi1 (by omega) (by omega) hk0 hk1).1,
            (encodeCell_bounds g I (J - 1) K hx hy hi0 hi1 (by omega) (by omega) hk0 hk1).2⟩
          rw [if_neg hj]
          exact congrArg some (by ring)
      · intro hb
        push_neg at hb
        obtain ⟨hb0, hbn⟩ := hb
        refine ⟨I + ((J - 1) + K * g.ny) * g.nx, I + (J + K * g.ny) * g.nx,
          ?_, by rw [if_neg (by tauto)],
          (encodeCell_bounds g I (J - 1) K hx hy hi0 hi1 (by omega) (by omega) hk0 hk1).1,
          (encodeCell_bounds g I (J - 1) K hx hy hi0 hi1 (by omega) (by omega) hk0 hk1).2,
          (encodeCell_bounds g I J K hx hy hi0 hi1 hj0 (by omega) hk0 hk1).1,
          (encodeCell_bounds g I J K hx hy hi0 hi1 hj0 (by omega) hk0 hk1).2, ?_⟩
        · rw [if_neg hb0]
          exact congrArg some (by ring)
        · have hpos : (0:ℤ) < g.nx := by omega
          have heq : (I + (J + K * g.ny) * g.nx) - (I + ((J - 1) + K * g.ny) * g.nx)
              = g.nx := by ring
          exact ne_of_lt (by linarith)
    · have hr0 : (0:ℤ) ≤ f - g.numberOfXYFaces - g.numberOfXZFaces := by omega
      have e : g.numberOfYZFaces = (g.nx + 1) * g.ny * g.nz := rfl
      have e2 : numberOfFaces g =
          g.numberOfXYFaces + g.numberOfXZFaces + g.numberOfYZFaces := rfl
      have hr1 : f - g.numberOfXYFaces - g.numberOfXZFaces <
          (g.nx + 1) * g.ny * g.nz := by
        rw [← e]; rw [e2] at hf1; omega
      obtain ⟨hi0, hi1, hj0, hj1, hk0, hk1⟩ :=
        decode_bounds (g.nx + 1) g.ny g.nz (f - g.numberOfXYFaces - g.numberOfXZFaces)
          (by omega) (by omega) hr0 hr1
      have hdf := decodeFace_yz g f (by omega) (by omega)
      set I := (f - g.numberOfXYFaces - g.numberOfXZFaces) % (g.nx + 1) with hI
      set J := ((f - g.numberOfXYFaces - g.numberOfXZFaces) / (g.nx + 1)) % g.ny with hJ
      set K := ((f - g.numberOfXYFaces - g.numberOfXZFaces) / (g.nx + 1)) / g.ny with hK
      have hbd : specBoundaryFace g f = decide (I = 0 ∨ I = g.nx) := by
        simp [specBoundaryFace, hdf]
      have hfc : getFaceCellIDs g f = faceCellIDsYZ g I J K := by
        simp [getFaceCellIDs, hdf]
      rw [hbd, hfc]
      simp only [faceCellIDsYZ, decide_eq_true_eq, decide_eq_false_iff_not]
      constructor
      · intro hb
        refine ⟨by rw [if_pos hb], ?_⟩
        rcases eq_or_ne I 0 with hi | hi
        · exact ⟨I + (J + K * g.ny) * g.nx, by rw [if_pos hi],
            (encodeCell_bounds g I J K hx hy hi0 (by omega) hj0 hj1 hk0 hk1).1,
            (encodeCell_bounds g I J K hx hy hi0 (by omega) hj0 hj1 hk0 hk1).2⟩
        · have hbz : I = g.nx := by tauto
          refine ⟨(I - 1) + (J + K * g.ny) * g.nx, ?_,
            (encodeCell_bounds g (I - 1) J K hx hy (by omega) (by omega) hj0 hj1 hk0 hk1).1,
            (encodeCell_bounds g (I - 1) J K hx hy (by omega) (by omega) hj0 hj1 hk0 hk1).2⟩
          rw [if_neg hi]
          exact congrArg some (by ring)
      · intro hb
        push_neg at hb
        obtain ⟨hb0, hbn⟩ := hb
        refine ⟨(I - 1) + (J + K * g.ny) * g.nx, I + (J + K * g.ny) * g.nx,
          ?_, by rw [if_neg (by tauto)],
          (encodeCell_bounds g (I - 1) J K hx hy (by omega) (by omega) hj0 hj1 hk0 hk1).1,
          (encodeCell_bounds g (I - 1) J K hx hy (by omega) (by omega) hj0 hj1 hk0 hk1).2,
          (encodeCell_bounds g I J K hx hy hi0 (by omega) hj0 hj1 hk0 hk1).1,
          (encodeCell_bounds g I J K hx hy hi0 (by omega) hj0 hj1 hk0 hk1).2, ?_⟩
        · rw [if_neg hb0]
          exact congrArg some (by ring)
        · have heq : (I + (J + K * g.ny) * g.nx) - ((I - 1) + (J + K * g.ny) * g.nx)
              = 1 := by ring
          exact ne_of_lt (by linarith)

/-- C4 witness: the theorem applied to the 2 x 2 x 2 grid at face 0. -/
theorem C4_witness :
    ((1 : ℤ) ≤ Gw.nx ∧ (1 : ℤ) ≤ Gw.ny ∧ (1 : ℤ) ≤ Gw.nz ∧ (0 : ℤ) ≤ 0 ∧
      (0 : ℤ) < numberOfFaces Gw) ∧
    ((specBoundaryFace Gw 0 = true →
      (getFaceCellIDs Gw 0).2 = none ∧
      ∃ c0, (getFaceCellIDs Gw 0).1 = some c0 ∧ 0 ≤ c0 ∧ c0 < numberOfCells Gw) ∧
     (specBoundaryFace Gw 0 = false →
      ∃ c0 c1, (getFaceCellIDs Gw 0).1 = some c0 ∧ (getFaceCellIDs Gw 0).2 = some c1 ∧
        0 ≤ c0 ∧ c0 < numberOfCells Gw ∧ 0 ≤ c1 ∧ c1 < numberOfCells Gw ∧ c0 ≠ c1)) :=
  ⟨by decide,
   C4_faceCellIDs_valid Gw (by decide) (by decide) (by decide)
     0 (by decide) (by decide)⟩

/-- Lattice coordinates of an encoded cell ID. -/
theorem cellIJK_of_encode (g : UniformGrid3D) (i j k : ℤ)
    (hx : 1 ≤ g.nx) (hy : 1 ≤ g.ny)
    (hi0 : 0 ≤ i) (hi1 : i < g.nx) (hj0 : 0 ≤ j) (hj1 : j < g.ny) (hk0 : 0 ≤ k) :
    cellI g (i + (j + k * g.ny) * g.nx) = i ∧
    cellJ g (i + (j + k * g.ny) * g.nx) = j ∧
    cellK g (i + (j + k * g.ny) * g.nx) = k := by
  have e : i + (j + k * g.ny) * g.nx = i + g.nx * (j + g.ny * k) := by ring
  have h := decode_of_encode g.nx g.ny i j k (by omega) (by omega) hi0 hi1 hj0 hj1 hk0
  refine ⟨?_, ?_, ?_⟩
  · rw [cellI, e]; exact h.1
  · rw [cellJ, e]; exact h.2.1
  · rw [cellK, e]; exact h.2.2

/-- decodeFace of an encoded XY-band face ID. -/
theorem decodeFace_encode_xy (g : UniformGrid3D) (i j k : ℤ)
    (hx : 1 ≤ g.nx) (hy : 1 ≤ g.ny) (_hz : 1 ≤ g.nz)
    (hi0 : 0 ≤ i) (hi1 : i < g.nx) (hj0 : 0 ≤ j) (hj1 : j < g.ny)
    (hk0 : 0 ≤ k) (hk1 : k < g.nz + 1) :
    decodeFace g (i + (j + k * g.ny) * g.nx) = (0, i, j, k) := by
  have e : i + (j + k * g.ny) * g.nx = i + g.nx * (j + g.ny * k) := by ring
  have hlt : i + g.nx * (j + g.ny * k) < g.nx * g.ny * (g.nz + 1) :=
    encode_lt _ _ _ _ _ _ (by omega) (by omega) hi1 hj1 hk1
  have hxy : g.numberOfXYFaces = g.nx * g.ny * (g.nz + 1) := rfl
  have h := decode_of_encode g.nx g.ny i j k (by omega) (by omega) hi0 hi1 hj0 hj1 hk0
  rw [e]
  simp only [decodeFace]
  rw [if_pos (by rw [hxy]; exact hlt)]
  simp [h.1, h.2.1, h.2.2]

/-- decodeFace of an encoded XZ-band face ID. -/
theorem decodeFace_encode_xz (g : UniformGrid3D) (i j k : ℤ)
    (hx : 1 ≤ g.nx) (hy : 1 ≤ g.ny) (_hz : 1 ≤ g.nz)
    (hi0 : 0 ≤ i) (hi1 : i < g.nx) (hj0 : 0 ≤ j) (hj1 : j < g.ny + 1)
    (hk0 : 0 ≤ k) (hk1 : k < g.nz) :
    decodeFace g (g.numberOfXYFaces + (i + (j + k * (g.ny + 1)) * g.nx)) = (1, i, j, k) := by
  have e : i + (j + k * (g.ny + 1)) * g.nx = i + g.nx * (j + (g.ny + 1) * k) := by ring
  have hge : 0 ≤ i + g.nx * (j + (g.ny + 1) * k) :=
    encode_nonneg _ _ _ _ _ (by omega) (by omega) hi0 hj0 hk0
  have hlt : i + g.nx * (j + (g.ny + 1) * k) < g.nx * (g.ny + 1) * g.nz :=
    encode_lt _ _ _ _ _ _ (by omega) (by omega) hi1 hj1 hk1
  have hxz : g.numberOfXZFaces = g.nx * (g.ny + 1) * g.nz := rfl
  have h := decode_of_encode g.nx (g.ny + 1) i j k (by omega) (by omega) hi0 hi1 hj0 hj1 hk0
  rw [e]
  simp only [decodeFace]
  rw [if_neg (by omega), if_pos (by rw [hxz] at *; omega)]
  have e2 : g.numberOfXYFaces + (i + g.nx * (j + (g.ny + 1) * k)) - g.numberOfXYFaces
      = i + g.nx * (j + (g.ny + 1) * k) := by ring
  simp [e2, h.1, h.2.1, h.2.2]

/-- decodeFace of an encoded YZ-band face ID. -/
theorem decodeFace_encode_yz (g : UniformGrid3D) (i j k : ℤ)
    (hx : 1 ≤ g.nx) (hy : 1 ≤ g.ny) (hz : 1 ≤ g.nz)
    (hi0 : 0 ≤ i) (hi1 : i < g.nx + 1) (hj0 : 0 ≤ j) (hj1 : j < g.ny)
    (hk0 : 0 ≤ k) (hk1 : k < g.nz) :
    decodeFace g (g.numberOfXYFaces + g.numberOfXZFaces + (i + (j + k * g.ny) * (g.nx + 1)))
      = (2, i, j, k) := by
  have e : i + (j + k * g.ny) * (g.nx + 1) = i + (g.nx + 1) * (j + g.ny * k) := by ring
  have hge : 0 ≤ i + (g.nx + 1) * (j + g.ny * k) :=
    encode_nonneg _ _ _ _ _ (by omega) (by omega) hi0 hj0 hk0
  have hlt : i + (g.nx + 1) * (j + g.ny * k) < (g.nx + 1) * g.ny * g.nz :=
    encode_lt _ _ _ _ _ _ (by omega) (by omega) hi1 hj1 hk1
  have h := decode_of_encode (g.nx + 1) g.ny i j k (by omega) (by omega) hi0 hi1 hj0 hj1 hk0
  have hpz : 0 < g.numberOfXZFaces := by
    have e3 : g.numberOfXZFaces = g.nx * (g.ny + 1) * g.nz := rfl
    rw [e3]
    exact mul_pos (mul_pos (by omega) (by omega)) (by omega)
  rw [e]
  simp only [decodeFace]
  rw [if_neg (by omega), if_neg (by omega)]
  have e2 : g.numberOfXYFaces + g.numberOfXZFaces + (i + (g.nx + 1) * (j + g.ny * k))
      - g.numberOfXYFaces - g.numberOfXZFaces = i + (g.nx + 1) * (j + g.ny * k) := by ring
  simp [e2, h.1, h.2.1, h.2.2]

/-- numerix.rint is the identity on integers. -/
theorem rint_intCast (n : ℤ) : rint (n : ℚ) = n := by
  norm_num [rint, Int.floor_intCast]

/-- C3: on the 2 x 1 x 1 grid, the interior face between cells 0 and 1
is the -X face of cell 1; its positive-side (slot-1) neighbor is cell 1
itself, yet the orientation query answers -1 for cell 1, because the
source compares the face's slot-0 ("first") neighbor, not the
positive-side one. -/
theorem C3_counterexample_positive_side :
    cellFaceOrientations G211 0 1 = -1 ∧
    (getFaceCellIDs G211 (cellFaceIDs G211 0 1)).2 = some 1 := by decide

/-- C3 (amended): the orientation is +1 exactly when the face's slot-0
("first") recorded neighbor equals the querying cell; concretely the
+X, +Y and +Z slots always answer +1, while a minus-direction slot answers +1
exactly when the cell sits on the corresponding low boundary. -/
theorem C3_orientations_first_neighbor (g : UniformGrid3D)
    (hx : 1 ≤ g.nx) (hy : 1 ≤ g.ny) (hz : 1 ≤ g.nz)
    (c : ℤ) (hc0 : 0 ≤ c) (hc1 : c < numberOfCells g) :
    cellFaceOrientations g 0 c = (if cellI g c = 0 then 1 else -1) ∧
    cellFaceOrientations g 1 c = 1 ∧
    cellFaceOrientations g 2 c = (if cellJ g c = 0 then 1 else -1) ∧
    cellFaceOrientations g 3 c = 1 ∧
    cellFaceOrientations g 4 c = (if cellK g c = 0 then 1 else -1) ∧
    cellFaceOrientations g 5 c = 1 := by
  obtain ⟨i, j, k, hi0, hi1, hj0, hj1, hk0, hk1, hc⟩ :
      ∃ i j k : ℤ, 0 ≤ i ∧ i < g.nx ∧ 0 ≤ j ∧ j < g.ny ∧ 0 ≤ k ∧ k < g.nz ∧
        i + (j + k * g.ny) * g.nx = c := by
    obtain ⟨hi0, hi1, hj0, hj1, hk0, hk1⟩ :=
      decode_bounds g.nx g.ny g.nz c (by omega) (by omega) hc0 hc1
    exact ⟨c % g.nx, (c / g.nx) % g.ny, (c / g.nx) / g.ny, hi0, hi1, hj0, hj1, hk0, hk1,
      by linear_combination encode_of_decode g.nx g.ny c⟩
  obtain ⟨hIc, hJc, hKc⟩ := cellIJK_of_encode g i j k hx hy hi0 hi1 hj0 hj1 hk0
  rw [hc] at hIc hJc hKc
  rw [hIc, hJc, hKc]
  have hcf0 : cellFaceIDs g 0 c = g.numberOfXYFaces + g.numberOfXZFaces +
      (i + (j + k * g.ny) * (g.nx + 1)) := by
    simp [cellFaceIDs, hIc, hJc, hKc]
  have hcf1 : cellFaceIDs g 1 c = g.numberOfXYFaces + g.numberOfXZFaces +
      ((i + 1) + (j + k * g.ny) * (g.nx + 1)) := by
    simp [cellFaceIDs, hIc, hJc, hKc]
  have hcf2 : cellFaceIDs g 2 c = g.numberOfXYFaces +
      (i + (j + k * (g.ny + 1)) * g.nx) := by
    simp [cellFaceIDs, hIc, hJc, hKc]
  have hcf3 : cellFaceIDs g 3 c = g.numberOfXYFaces +
      (i + ((j + 1) + k * (g.ny + 1)) * g.nx) := by
    simp [cellFaceIDs, hIc, hJc, hKc]
  have hcf4 : cellFaceIDs g 4 c = i + (j + k * g.ny) * g.nx := by
    simp [cellFaceIDs, hIc, hJc, hKc]
  have hcf5 : cellFaceIDs g 5 c = i + (j + (k + 1) * g.ny) * g.nx := by
    simp [cellFaceIDs, hIc, hJc, hKc]
  refine ⟨?_, ?_, ?_, ?_, ?_, ?_⟩
  · -- slot 0: the -X face, a YZ face at column i
    have hd := decodeFace_encode_yz g i j k hx hy hz hi0 (by omega) hj0 hj1 hk0 hk1
    have hfc : getFaceCellIDs g (g.numberOfXYFaces + g.numberOfXZFaces +
        (i + (j + k * g.ny) * (g.nx + 1))) = faceCellIDsYZ g i j k := by
      simp [getFaceCellIDs, hd]
    rw [cellFaceOrientations, hcf0, hfc]
    rcases eq_or_ne i 0 with h0 | h0
    · have hP : (faceCellIDsYZ g i j k).1 = some c := by
        simp only [faceCellIDsYZ]
        rw [if_pos h0]
        exact congrArg some hc
      rw [if_pos hP, if_pos h0]
    · have hP : ¬ (faceCellIDsYZ g i j k).1 = some c := by
        simp only [faceCellIDsYZ]
        rw [if_neg h0]
        simp only [Option.some.injEq]
        intro hcon
        linarith [hc]
      rw [if_neg hP, if_neg h0]
  · -- slot 1: the +X face, a YZ face at column i+1
    have hd := decodeFace_encode_yz g (i + 1) j k hx hy hz (by omega) (by omega) hj0 hj1 hk0 hk1
    have hfc : getFaceCellIDs g (g.numberOfXYFaces + g.numberOfXZFaces +
        ((i + 1) + (j + k * g.ny) * (g.nx + 1))) = faceCellIDsYZ g (i + 1) j k := by
      simp [getFaceCellIDs, hd]
    rw [cellFaceOrientations, hcf1, hfc]
    have hP : (faceCellIDsYZ g (i + 1) j k).1 = some c := by
      simp only [faceCellIDsYZ]
      rw [if_neg (by omega : ¬ i + 1 = 0)]
      exact congrArg some (by linear_combination hc)
    rw [if_pos hP]
  · -- slot 2: the -Y face, an XZ face at row j
    have hd := decodeFace_encode_xz g i j k hx hy hz hi0 hi1 hj0 (by omega) hk0 hk1
    have hfc : getFaceCellIDs g (g.numberOfXYFaces +
        (i + (j + k * (g.ny + 1)) * g.nx)) = faceCellIDsXZ g i j k := by
      simp [getFaceCellIDs, hd]
    rw [cellFaceOrientations, hcf2, hfc]
    rcases eq_or_ne j 0 with h0 | h0
    · have hP : (faceCellIDsXZ g i j k).1 = some c := by
        simp only [faceCellIDsXZ]
        rw [if_pos h0]
        exact congrArg some hc
      rw [if_pos hP, if_pos h0]
    · have hP : ¬ (faceCellIDsXZ g i j k).1 = some c := by
        simp only [faceCellIDsXZ]
        rw [if_neg h0]
        simp only [Option.some.injEq]
        intro hcon
        have hxpos : (0:ℤ) < g.nx := by omega
        linarith [hc]
      rw [if_neg hP, if_neg h0]
  · -- slot 3: the +Y face, an XZ face at row j+1
    have hd := decodeFace_encode_xz g i (j + 1) k hx hy hz hi0 hi1 (by omega) (by omega) hk0 hk1
    have hfc : getFaceCellIDs g (g.numberOfXYFaces +
        (i + ((j + 1) + k * (g.ny + 1)) * g.nx)) = faceCellIDsXZ g i (j + 1) k := by
      simp [getFaceCellIDs, hd]
    rw [cellFaceOrientations, hcf3, hfc]
    have hP : (faceCellIDsXZ g i (j + 1) k).1 = some c := by
      simp only [faceCellIDsXZ]
      rw [if_neg (by omega : ¬ j + 1 = 0)]
      exact congrArg some (by linear_combination hc)
    rw [if_pos hP]
  · -- slot 4: the -Z face, an XY face at layer k
    have hd := decodeFace_encode_xy g i j k hx hy hz hi0 hi1 hj0 hj1 hk0 (by omega)
    have hfc : getFaceCellIDs g (i + (j + k * g.ny) * g.nx) = faceCellIDsXY g i j k := by
      simp [getFaceCellIDs, hd]
    rw [cellFaceOrientations, hcf4, hfc]
    rcases eq_or_ne k 0 with h0 | h0
    · have hP : (faceCellIDsXY g i j k).1 = some c := by
        simp only [faceCellIDsXY]
        rw [if_pos h0]
        exact congrArg some hc
      rw [if_pos hP, if_pos h0]
    · have hP : ¬ (faceCellIDsXY g i j k).1 = some c := by
        simp only [faceCellIDsXY]
        rw [if_neg h0]
        simp only [Option.some.injEq]
        intro hcon
        have hpos : (0:ℤ) < g.nx * g.ny := mul_pos (by omega) (by omega)
        linarith [hc]
      rw [if_neg hP, if_neg h0]
  · -- slot 5: the +Z face, an XY face at layer k+1
    have hd := decodeFace_encode_xy g i j (k + 1) hx hy hz hi0 hi1 hj0 hj1 (by omega) (by omega)
    have hfc : getFaceCellIDs g (i + (j + (k + 1) * g.ny) * g.nx)
        = faceCellIDsXY g i j (k + 1) := by
      simp [getFaceCellIDs, hd]
    rw [cellFaceOrientations, hcf5, hfc]
    have hP : (faceCellIDsXY g i j (k + 1)).1 = some c := by
      simp only [faceCellIDsXY]
      rw [if_neg (by omega : ¬ k + 1 = 0)]
      exact congrArg some (by linear_combination hc)
    rw [if_pos hP]

/-- C3 witness: the amended theorem applied to the 2 x 2 x 2 grid at
cell 1. -/
theorem C3_witness :
    ((1 : ℤ) ≤ Gw.nx ∧ (1 : ℤ) ≤ Gw.ny ∧ (1 : ℤ) ≤ Gw.nz ∧
      (0 : ℤ) ≤ 1 ∧ (1 : ℤ) < numberOfCells Gw) ∧
    (cellFaceOrientations Gw 0 1 = (if cellI Gw 1 = 0 then 1 else -1) ∧
     cellFaceOrientations Gw 1 1 = 1 ∧
     cellFaceOrientations Gw 2 1 = (if cellJ Gw 1 = 0 then 1 else -1) ∧
     cellFaceOrientations Gw 3 1 = 1 ∧
     cellFaceOrientations Gw 4 1 = (if cellK Gw 1 = 0 then 1 else -1) ∧
     cellFaceOrientations Gw 5 1 = 1) :=
  ⟨by decide,
   C3_orientations_first_neighbor Gw (by decide) (by decide) (by decide)
     1 (by decide) (by decide)⟩

/-- C7: feeding a cell's exact centre coordinates to the nearest-cell
locator returns that cell's ID. -/
theorem C7_nearestCellID_of_center (g : UniformGrid3D)
    (hx : 1 ≤ g.nx) (hy : 1 ≤ g.ny) (_hz : 1 ≤ g.nz)
    (hdx : 0 < g.dx) (hdy : 0 < g.dy) (hdz : 0 < g.dz)
    (c : ℤ) (hc0 : 0 ≤ c) (hc1 : c < numberOfCells g) :
    nearestCellID g (getCellCenters g c).1 (getCellCenters g c).2.1
      (getCellCenters g c).2.2 = c := by
  obtain ⟨hi0, hi1, hj0, hj1, hk0, hk1⟩ :=
    decode_bounds g.nx g.ny g.nz c (by omega) (by omega) hc0 hc1
  have hi0' : 0 ≤ cellI g c := hi0
  have hi1' : cellI g c < g.nx := hi1
  have hj0' : 0 ≤ cellJ g c := hj0
  have hj1' : cellJ g c < g.ny := hj1
  have hk0' : 0 ≤ cellK g c := hk0
  have hk1' : cellK g c < g.nz := hk1
  have hI0 : cellI g 0 = 0 := by simp [cellI]
  have hJ0 : cellJ g 0 = 0 := by simp [cellJ]
  have hK0 : cellK g 0 = 0 := by simp [cellK]
  have hrec : cellI g c + g.nx * (cellJ g c + g.ny * cellK g c) = c :=
    encode_of_decode g.nx g.ny c
  have hdx' : g.dx ≠ 0 := ne_of_gt hdx
  have hdy' : g.dy ≠ 0 := ne_of_gt hdy
  have hdz' : g.dz ≠ 0 := ne_of_gt hdz
  simp only [nearestCellID, getCellCenters, hI0, hJ0, hK0, Int.cast_zero]
  have e1 : ((((cellI g c : ℤ) : ℚ) + 1/2) * g.dx + g.ox -
      (((0 : ℚ) + 1/2) * g.dx + g.ox)) / g.dx = ((cellI g c : ℤ) : ℚ) := by
    field_simp
    ring
  have e2 : ((((cellJ g c : ℤ) : ℚ) + 1/2) * g.dy + g.oy -
      (((0 : ℚ) + 1/2) * g.dy + g.oy)) / g.dy = ((cellJ g c : ℤ) : ℚ) := by
    field_simp
    ring
  have e3 : ((((cellK g c : ℤ) : ℚ) + 1/2) * g.dz + g.oz -
      (((0 : ℚ) + 1/2) * g.dz + g.oz)) / g.dz = ((cellK g c : ℤ) : ℚ) := by
    field_simp
    ring
  rw [e1, e2, e3, rint_intCast, rint_intCast, rint_intCast]
  rw [if_neg (by omega : ¬ cellI g c < 0), if_neg (by omega : ¬ cellI g c > g.nx - 1),
    if_neg (by omega : ¬ cellJ g c < 0), if_neg (by omega : ¬ cellJ g c > g.ny - 1),
    if_neg (by omega : ¬ cellK g c < 0), if_neg (by omega : ¬ cellK g c > g.nz - 1)]
  linear_combination hrec

/-- C7 witness: the theorem applied to the 2 x 2 x 2 grid at cell 5. -/
theorem C7_witness :
    ((1 : ℤ) ≤ Gw.nx ∧ (1 : ℤ) ≤ Gw.ny ∧ (1 : ℤ) ≤ Gw.nz ∧
      (0 : ℚ) < Gw.dx ∧ (0 : ℚ) < Gw.dy ∧ (0 : ℚ) < Gw.dz ∧
      (0 : ℤ) ≤ 5 ∧ (5 : ℤ) < numberOfCells Gw) ∧
    nearestCellID Gw (getCellCenters Gw 5).1 (getCellCenters Gw 5).2.1
      (getCellCenters Gw 5).2.2 = 5 :=
  ⟨⟨by decide, by decide, by decide, by norm_num [Gw], by norm_num [Gw],
    by norm_num [Gw], by decide, by decide⟩,
   C7_nearestCellID_of_center Gw (by decide) (by decide) (by decide)
     (by norm_num [Gw]) (by norm_num [Gw]) (by norm_num [Gw])
     5 (by decide) (by decide)⟩
